import Mathlib

/-!
Verification of the Optic Pulse retail-analytics core: the Intent Triage &
Dispatch layer (`main.py` / `process_request`) and the Lazy Analytical Query
Engine (`services/data_engine.py` over `core/database.py`).

The Python code is shallowly embedded: DuckDB tables become typed lists of
rows, polars `LazyFrame` values become a small plan AST with an explicit
`collect`, and the FastAPI dispatcher becomes a pure function from a request
dictionary (association list) to a response, instrumented with counters for
the observable effects (DuckDB executions, classifier invocations, handler
invocations).
-/

/-- JSON-like values carried in request/response dictionaries and in
materialized rows (polars / DuckDB cells); `null` models SQL NULL. -/
inductive Value where
  | null : Value
  | str : String → Value
  | int : Int → Value
  | rat : Rat → Value
  | list : List Value → Value
  | dict : List (String × Value) → Value
deriving Repr

/-- A row (or a Python dict): an association list from column/key names to
values, looked up by first match. -/
abbrev Row := List (String × Value)

/-- First-match lookup in a row / dict, `d.get(k)` or `d[k]`. -/
def lookupRow : Row → String → Option Value
  | [], _ => none
  | (k0, v0) :: rest, k => if k0 = k then some v0 else lookupRow rest k

/-- Python `d[k] = v`: replace the first binding of `k` in place, or append a
new binding at the end. -/
def setKey : Row → String → Value → Row
  | [], k, v => [(k, v)]
  | (k0, v0) :: rest, k, v =>
      if k0 = k then (k, v) :: rest else (k0, v0) :: setKey rest k v

theorem lookupRow_append (l₁ l₂ : Row) (k : String) :
    lookupRow (l₁ ++ l₂) k =
      match lookupRow l₁ k with
      | some v => some v
      | none => lookupRow l₂ k := by
  induction l₁ with
  | nil => simp [lookupRow]
  | cons hd tl ih =>
      obtain ⟨k0, v0⟩ := hd
      by_cases h : k0 = k <;> simp [lookupRow, h, ih]

/-- Python dict comprehension dropping one key:
`{k: v for k, v in d.items() if k != bad}`. -/
def dropKey (r : Row) (bad : String) : Row :=
  r.filter (fun kv => kv.1 ≠ bad)

theorem lookupRow_setKey_ne (r : Row) (k k' : String) (v : Value) (h : k ≠ k') :
    lookupRow (setKey r k' v) k = lookupRow r k := by
  have hne : ¬k' = k := fun hh => h hh.symm
  induction r with
  | nil => simp [setKey, lookupRow, hne]
  | cons hd tl ih =>
      obtain ⟨k0, v0⟩ := hd
      by_cases h0 : k0 = k'
      · simp [setKey, lookupRow, h0, hne, h]
      · by_cases h1 : k0 = k <;> simp [setKey, lookupRow, h0, h1, ih, h]

theorem lookupRow_dropKey_ne (r : Row) (k bad : String) (h : k ≠ bad) :
    lookupRow (dropKey r bad) k = lookupRow r k := by
  induction r with
  | nil => simp [dropKey, lookupRow]
  | cons hd tl ih =>
      obtain ⟨k0, v0⟩ := hd
      simp only [dropKey, ne_eq, decide_not] at ih ⊢
      rw [List.filter_cons]
      by_cases h0 : k0 = bad
      · have h1 : ¬k0 = k := by intro hh; subst hh; exact h h0
        have h2 : ¬bad = k := fun hh => h hh.symm
        simp [h0, h1, h2, lookupRow, ih]
      · by_cases h1 : k0 = k
        · subst h1
          simp [h0, lookupRow]
        · simp [h0, h1, lookupRow, ih]

/-! ## Datasets (DuckDB tables referenced by `DataEngine` queries) -/

/-- A row of the `sales` table (columns used by the `DataEngine` SQL). -/
structure SalesRow where
  sales_id : Int
  sales_date : String
  quantity : Int
  sales_price : Rat
  discount : Rat
  sku : String
  item_sid : Int
  cid : Int
deriving Repr, DecidableEq

/-- A row of the `contacts` table. -/
structure ContactRow where
  cid : Int
  first_name : String
  last_name : String
  gender : String
  city : String
  birth_day : String
  loyalty_customer : String
  created_date : String
deriving Repr, DecidableEq

/-- A row of the `sku` product-catalog table. -/
structure SkuRow where
  sku_id : Int
  sku : String
  description : String
  list_price : Rat
  item_category : String
  item_sid : Int
  vendor_code : String
  department_code : String
deriving Repr, DecidableEq

/-- A row of the `templates` message-template table. -/
structure TemplateRow where
  id : Int
  msg_content : String
deriving Repr, DecidableEq

/-- A row of the `campaign_metrics` event table. -/
structure MetricRow where
  event_id : Int
  campaign_id : Int
  event_type : String
  event_date : String
deriving Repr, DecidableEq

/-- The in-process analytical store holding the tables the `DataEngine`
queries reference. -/
structure Store where
  sales : List SalesRow
  contacts : List ContactRow
  sku : List SkuRow
  templates : List TemplateRow
  campaign_metrics : List MetricRow
deriving Repr

/-! ## Polars LazyFrame plans

`DataEngine._execute_duckdb_query` runs its SQL eagerly
(`self.duckdb_conn.execute(sql_query).arrow()`) and only then wraps the
already-materialized Arrow table as a polars `LazyFrame`
(`pl.from_arrow(arrow_table).lazy()`).  The plan AST therefore has a `lit`
node carrying materialized rows, plus the two polars operations
`get_user_analytics_pipeline` builds on top (`join(how="left")` and
`with_columns`). -/

/-- A polars column expression (`pl.col(a) * pl.col(b)` is all the source
uses, in the two derived columns of `get_user_analytics_pipeline`). -/
inductive ColExpr where
  | col (name : String)
  | mul (a b : ColExpr)
deriving Repr, DecidableEq

/-- A polars `LazyFrame` plan. -/
inductive LF where
  | lit (schema : List String) (rows : List Row)
  | joinLeft (left right : LF) (key : String)
  | withCols (frame : LF) (cols : List (String × ColExpr))
deriving Repr

/-- Schema (column names) of a plan, without evaluating it. -/
def LF.schema : LF → List String
  | .lit s _ => s
  | .joinLeft l r key => l.schema ++ (r.schema.filter (fun c => c ≠ key))
  | .withCols f cols =>
      f.schema ++ ((cols.map Prod.fst).filter (fun c => ¬ f.schema.contains c))

/-- Evaluate a column expression on one row at materialization time; any
null or non-numeric operand propagates null, mirroring polars arithmetic. -/
def evalColExpr (row : Row) : ColExpr → Value
  | .col n => (lookupRow row n).getD Value.null
  | .mul a b =>
      match evalColExpr row a, evalColExpr row b with
      | Value.int x, Value.int y => Value.int (x * y)
      | Value.int x, Value.rat y => Value.rat (x * y)
      | Value.rat x, Value.int y => Value.rat (x * y)
      | Value.rat x, Value.rat y => Value.rat (x * y)
      | _, _ => Value.null

/-- Equality test used for join keys; SQL/polars NULL matches nothing. -/
def valueEqPrim : Value → Value → Bool
  | Value.str a, Value.str b => a == b
  | Value.int a, Value.int b => a == b
  | Value.rat a, Value.rat b => a == b
  | _, _ => false

/-- `materialize`: execute the full plan.  A left join keeps every left row,
pairing it with each key-matching right row (right key column dropped), or
null-filling the right columns when nothing matches; `withCols` evaluates
the derived columns per row, only here and never at plan-build time. -/
def LF.collect : LF → List Row
  | .lit _ rows => rows
  | .joinLeft l r key =>
      let leftRows := l.collect
      let rightRows := r.collect
      let rightCols := r.schema.filter (fun c => c ≠ key)
      leftRows.flatMap (fun lr =>
        let hits :=
          match lookupRow lr key with
          | none => []
          | some kv => rightRows.filter (fun rr =>
              match lookupRow rr key with
              | none => false
              | some kv2 => valueEqPrim kv kv2)
        if hits.isEmpty then
          [lr ++ rightCols.map (fun c => (c, Value.null))]
        else
          hits.map (fun rr => lr ++ rr.filter (fun kv => kv.1 ≠ key)))
  | .withCols f cols =>
      f.collect.map (fun row =>
        cols.foldl (fun acc nc => setKey acc nc.1 (evalColExpr row nc.2)) row)

/-! ## DataEngine plan-returning methods

Each method builds an SQL string and passes it to `_execute_duckdb_query`,
which executes it against the store immediately and wraps the result rows in
a `lit` plan.  `duckdbExecs` counts those executions, the observable data
accesses performed at method-call time. -/

/-- A frame returned by a `DataEngine` method, together with the number of
DuckDB query executions its construction performed. -/
structure BuiltFrame where
  frame : LF
  duckdbExecs : Nat
deriving Repr

/-- Result schema of `get_enriched_sales` (the SQL SELECT list). -/
def enrichedCols : List String :=
  ["cid", "sales_id", "sales_date", "quantity", "sales_price", "discount",
   "description", "item_category", "vendor_code", "department_code"]

/-- Rows of the `get_enriched_sales` SQL: `sales s LEFT JOIN sku p ON
s.item_sid = p.item_sid WHERE s.cid = cid`. -/
def enrichedSalesRows (store : Store) (cid : Int) : List Row :=
  (store.sales.filter (fun s => s.cid == cid)).flatMap (fun s =>
    let salesCols : Row :=
      [("cid", Value.int s.cid), ("sales_id", Value.int s.sales_id),
       ("sales_date", Value.str s.sales_date),
       ("quantity", Value.int s.quantity),
       ("sales_price", Value.rat s.sales_price),
       ("discount", Value.rat s.discount)]
    let ps := store.sku.filter (fun p => p.item_sid == s.item_sid)
    if ps.isEmpty then
      [salesCols ++
        [("description", Value.null), ("item_category", Value.null),
         ("vendor_code", Value.null), ("department_code", Value.null)]]
    else
      ps.map (fun p =>
        salesCols ++
          [("description", Value.str p.description),
           ("item_category", Value.str p.item_category),
           ("vendor_code", Value.str p.vendor_code),
           ("department_code", Value.str p.department_code)]))

/-- `DataEngine.get_enriched_sales`: executes its SQL at call time (one
DuckDB execution) and returns the materialized rows wrapped lazily. -/
def get_enriched_sales (store : Store) (cid : Int) : BuiltFrame :=
  { frame := LF.lit enrichedCols (enrichedSalesRows store cid)
    duckdbExecs := 1 }

/-- Result schema of `get_customer_profile`. -/
def profileCols : List String :=
  ["cid", "first_name", "last_name", "gender", "city", "birth_day",
   "loyalty_customer", "created_date"]

/-- Rows of the `get_customer_profile` SQL:
`SELECT ... FROM contacts WHERE cid = cid`. -/
def customerProfileRows (store : Store) (cid : Int) : List Row :=
  (store.contacts.filter (fun c => c.cid == cid)).map (fun c =>
    [("cid", Value.int c.cid), ("first_name", Value.str c.first_name),
     ("last_name", Value.str c.last_name), ("gender", Value.str c.gender),
     ("city", Value.str c.city), ("birth_day", Value.str c.birth_day),
     ("loyalty_customer", Value.str c.loyalty_customer),
     ("created_date", Value.str c.created_date)])

/-- `DataEngine.get_customer_profile`. -/
def get_customer_profile (store : Store) (cid : Int) : BuiltFrame :=
  { frame := LF.lit profileCols (customerProfileRows store cid)
    duckdbExecs := 1 }

/-- Rows of the `get_sales_history` SQL:
`sales s JOIN contacts c ON s.cid = c.cid WHERE s.cid = cid` (inner join). -/
def salesHistoryRows (store : Store) (cid : Int) : List Row :=
  (store.sales.filter (fun s => s.cid == cid)).flatMap (fun s =>
    (store.contacts.filter (fun c => c.cid == s.cid)).map (fun c =>
      [("sales_id", Value.int s.sales_id),
       ("sales_date", Value.str s.sales_date),
       ("quantity", Value.int s.quantity),
       ("sales_price", Value.rat s.sales_price),
       ("discount", Value.rat s.discount), ("sku", Value.str s.sku),
       ("item_sid", Value.int s.item_sid), ("cid", Value.int c.cid),
       ("first_name", Value.str c.first_name),
       ("last_name", Value.str c.last_name),
       ("gender", Value.str c.gender), ("city", Value.str c.city),
       ("loyalty_customer", Value.str c.loyalty_customer)]))

/-- Result schema of `get_sales_history`. -/
def salesHistoryCols : List String :=
  ["sales_id", "sales_date", "quantity", "sales_price", "discount", "sku",
   "item_sid", "cid", "first_name", "last_name", "gender", "city",
   "loyalty_customer"]

/-- `DataEngine.get_sales_history`. -/
def get_sales_history (store : Store) (cid : Int) : BuiltFrame :=
  { frame := LF.lit salesHistoryCols (salesHistoryRows store cid)
    duckdbExecs := 1 }

/-- The two derived columns `get_user_analytics_pipeline` adds with
`with_columns`: `gross_spend = quantity * sales_price` and
`discount_value = quantity * discount`. -/
def pipelineDerivedCols : List (String × ColExpr) :=
  [("gross_spend", ColExpr.mul (ColExpr.col "quantity")
      (ColExpr.col "sales_price")),
   ("discount_value", ColExpr.mul (ColExpr.col "quantity")
      (ColExpr.col "discount"))]

/-- `DataEngine.get_user_analytics_pipeline`: calls `get_enriched_sales` and
`get_customer_profile` (both execute their SQL now), then composes the
deferred polars operations `join(on="cid", how="left")` and
`with_columns(...)` on the returned frames. -/
def get_user_analytics_pipeline (store : Store) (cid : Int) : BuiltFrame :=
  let sales := get_enriched_sales store cid
  let customer := get_customer_profile store cid
  { frame := LF.withCols (LF.joinLeft sales.frame customer.frame "cid")
      pipelineDerivedCols
    duckdbExecs := sales.duckdbExecs + customer.duckdbExecs }

/-- `transactionDigest`: the user analytics pipeline materialized
(`lf.collect()` by the consumers in `vibe_agent` / `smart_receipt_agent`). -/
def transactionDigest (store : Store) (cid : Int) : List Row :=
  (get_user_analytics_pipeline store cid).frame.collect

/-! ## Campaign performance and its brand-voice consumer -/

/-- Keep the first occurrence of each element not yet in `seen`, dropping
later duplicates. -/
def dedupFirstAux {α : Type} [DecidableEq α] (seen : List α) :
    List α → List α
  | [] => []
  | a :: rest =>
      if a ∈ seen then dedupFirstAux seen rest
      else a :: dedupFirstAux (a :: seen) rest

/-- Keep the first occurrence of each element, dropping later duplicates
(the group keys of a GROUP BY, in first-encountered row order). -/
def dedupFirst {α : Type} [DecidableEq α] (l : List α) : List α :=
  dedupFirstAux [] l

/-- One row of the `get_campaign_performance` result. -/
structure PerfRow where
  template_id : Int
  msg_content : String
  delivered : Int
  clicked : Int
  success_rate : Rat
deriving Repr, DecidableEq

/-- Join rows of `templates t LEFT JOIN campaign_metrics cm ON
t.id = cm.campaign_id`. -/
def perfJoinRows (store : Store) : List (TemplateRow × Option MetricRow) :=
  store.templates.flatMap (fun t =>
    let ms := store.campaign_metrics.filter (fun m => m.campaign_id == t.id)
    if ms.isEmpty then [(t, none)] else ms.map (fun m => (t, some m)))

/-- `COUNT(*) FILTER (WHERE cm.event_type = ev)` over a group of join rows;
an unmatched left-join row has NULL `cm` columns and is never counted. -/
def countEvent (rows : List (TemplateRow × Option MetricRow))
    (ev : String) : Int :=
  ((rows.filter (fun tm =>
      match tm.2 with
      | some m => m.event_type == ev
      | none => false)).length : Int)

/-- Rows produced by the `get_campaign_performance` SQL: grouped by
`(t.id, t.msg_content)` with delivered/clicked filtered counts and
`success_rate` given by the CASE expression (0 when delivered is 0, else
clicked / delivered). -/
def campaignPerformanceRows (store : Store) : List PerfRow :=
  let rows := perfJoinRows store
  let keys := dedupFirst (rows.map (fun tm => (tm.1.id, tm.1.msg_content)))
  keys.map (fun k =>
    let g := rows.filter (fun tm =>
      tm.1.id == k.1 && tm.1.msg_content == k.2)
    let d := countEvent g "DELIVERED"
    let c := countEvent g "CLICKED"
    { template_id := k.1, msg_content := k.2, delivered := d, clicked := c,
      success_rate := if d = 0 then 0 else (c : Rat) / (d : Rat) })

/-- A materialized campaign-performance result with its DuckDB execution
count (the SQL aggregation runs eagerly; the wrapping LazyFrame is a
literal frame its consumer collects immediately). -/
structure BuiltPerf where
  rows : List PerfRow
  duckdbExecs : Nat
deriving Repr

/-- `DataEngine.get_campaign_performance`. -/
def get_campaign_performance (store : Store) : BuiltPerf :=
  { rows := campaignPerformanceRows store, duckdbExecs := 1 }

/-- Insert into a list sorted by `success_rate` descending; an element with
a rate equal to the head stays behind it (stable insertion). -/
def insertByRate (x : PerfRow) : List PerfRow → List PerfRow
  | [] => [x]
  | y :: ys =>
      if x.success_rate < y.success_rate then y :: insertByRate x ys
      else x :: y :: ys

/-- Stable sort by `success_rate` descending, modelling
`df.sort("success_rate", descending=True)` in
`BrandVoiceLLMService.generate_campaign`; no further sort key is applied. -/
def sortByRateDesc : List PerfRow → List PerfRow
  | [] => []
  | x :: xs => insertByRate x (sortByRateDesc xs)

/-- The leaderboard rows the brand-voice consumer feeds to the LLM:
`lf.collect()`, then sort by success rate descending, then `.head(10)`. -/
def consumedCampaignRows (store : Store) : List PerfRow :=
  (sortByRateDesc (get_campaign_performance store).rows).take 10

/-! ## User group profile (`get_user_group_profile`) -/

/-- One row of the group-profile SQL result (grouped by gender, city and
loyalty flag); `avg_spend` is `AVG(s.quantity * s.sales_price)`, NULL when
every join row of the group lacks a sale. -/
structure GroupRow where
  gender : String
  city : String
  loyalty_customer : String
  user_count : Int
  avg_spend : Option Rat
deriving Repr, DecidableEq

/-- Join rows of `contacts c LEFT JOIN sales s ON c.cid = s.cid WHERE c.cid
BETWEEN cidStart AND cidEnd` (BETWEEN is inclusive on both ends). -/
def groupJoinRows (store : Store) (cidStart cidEnd : Int) :
    List (ContactRow × Option SalesRow) :=
  (store.contacts.filter (fun c => cidStart ≤ c.cid ∧ c.cid ≤ cidEnd)).flatMap
    (fun c =>
      let ss := store.sales.filter (fun s => s.cid == c.cid)
      if ss.isEmpty then [(c, none)] else ss.map (fun s => (c, some s)))

/-- The grouped rows of the `get_user_group_profile` SQL:
`GROUP BY c.gender, c.city, c.loyalty_customer` with
`COUNT(*) AS user_count` (counting join rows) and
`AVG(s.quantity * s.sales_price) AS avg_spend` (NULLs ignored). -/
def groupProfileRows (store : Store) (cidStart cidEnd : Int) :
    List GroupRow :=
  let rows := groupJoinRows store cidStart cidEnd
  let keys := dedupFirst (rows.map (fun cs =>
    (cs.1.gender, cs.1.city, cs.1.loyalty_customer)))
  keys.map (fun k =>
    let g := rows.filter (fun cs =>
      cs.1.gender == k.1 && cs.1.city == k.2.1 &&
        cs.1.loyalty_customer == k.2.2)
    let spends := g.filterMap (fun cs =>
      cs.2.map (fun s => (s.quantity : Rat) * s.sales_price))
    { gender := k.1, city := k.2.1, loyalty_customer := k.2.2,
      user_count := (g.length : Int),
      avg_spend :=
        if spends.isEmpty then none
        else some (spends.sum / (spends.length : Rat)) })

/-- Errors `get_user_group_profile` can raise: the explicit
`RuntimeError("No users found for given CID range")` on an empty result,
and the `TypeError` from `round(None, 2)` when the mean of the `avg_spend`
column is null (every matched contact has zero sales). -/
inductive GPError where
  | emptyGroup
  | typeError
deriving Repr, DecidableEq

/-- The aggregated profile dictionary built from the grouped rows. -/
structure GroupProfile where
  total_users : Int
  gender_distribution : List (String × Int)
  city_distribution : List (String × Int)
  loyalty_split : List (String × Int)
  avg_spend : Rat
deriving Repr, DecidableEq

/-- `df.group_by(col).agg(pl.sum("user_count"))`: per distinct value of a
grouping column, the summed `user_count`. -/
def distributionBy (f : GroupRow → String) (rows : List GroupRow) :
    List (String × Int) :=
  (dedupFirst (rows.map f)).map (fun v =>
    (v, ((rows.filter (fun r => f r == v)).map (fun r => r.user_count)).sum))

/-- Python `round(x, 2)` on a rational: round half to even at two decimal
places. -/
def round2 (x : Rat) : Rat :=
  let y : Rat := 100 * x
  let f : Int := ⌊y⌋
  let frac : Rat := y - (f : Rat)
  let r : Int :=
    if (1 : Rat) / 2 < frac then f + 1
    else if frac < (1 : Rat) / 2 then f
    else if f % 2 = 0 then f else f + 1
  (r : Rat) / 100

/-- `DataEngine.get_user_group_profile`: runs the grouped SQL, raises on an
empty result, otherwise assembles `total_users` (sum of the per-group
join-row counts), the three distributions and the rounded mean of the
per-group `avg_spend` values (null group averages ignored by polars
`mean`; all-null raises via `round(None, 2)`). -/
def get_user_group_profile (store : Store) (cidStart cidEnd : Int) :
    Except GPError GroupProfile :=
  let rows := groupProfileRows store cidStart cidEnd
  if rows.isEmpty then .error .emptyGroup
  else
    let avgs := rows.filterMap (fun r => r.avg_spend)
    if avgs.isEmpty then .error .typeError
    else .ok
      { total_users := (rows.map (fun r => r.user_count)).sum
        gender_distribution := distributionBy (fun r => r.gender) rows
        city_distribution := distributionBy (fun r => r.city) rows
        loyalty_split := distributionBy (fun r => r.loyalty_customer) rows
        avg_spend := round2 (avgs.sum / (avgs.length : Rat)) }

/-! ## Columnar store loader vs. the tables the queries reference -/

/-- The table names `load_csvs_to_duckdb` registers: it issues exactly
`CREATE OR REPLACE TABLE transactions ...` and
`CREATE OR REPLACE TABLE customers ...`. -/
def loaderTables : List String := ["transactions", "customers"]

/-- The queries `DataEngine` exposes (one constructor per method that runs
SQL). -/
inductive EngineQuery where
  | salesHistory
  | customerProfile
  | productCatalog
  | enrichedSales
  | campaignEvents
  | userAnalyticsPipeline
  | campaignPerformance
  | userGroupProfile
  | contactsLoyalty
  | loyaltyByContact
  | loyaltyBalanceAbove
  | loyaltyAggregate
  | contactIds
deriving Repr, DecidableEq

/-- The table names each query's SQL references in FROM/JOIN clauses
(`userAnalyticsPipeline` runs the enriched-sales and customer-profile
SQL). -/
def referencedTables : EngineQuery → List String
  | .salesHistory => ["sales", "contacts"]
  | .customerProfile => ["contacts"]
  | .productCatalog => ["sku"]
  | .enrichedSales => ["sales", "sku"]
  | .campaignEvents => ["campaign_metrics"]
  | .userAnalyticsPipeline => ["sales", "sku", "contacts"]
  | .campaignPerformance => ["templates", "campaign_metrics"]
  | .userGroupProfile => ["contacts", "sales"]
  | .contactsLoyalty => ["contacts_loyalty"]
  | .loyaltyByContact => ["contacts_loyalty"]
  | .loyaltyBalanceAbove => ["contacts_loyalty"]
  | .loyaltyAggregate => ["contacts_loyalty"]
  | .contactIds => ["contacts"]

/-- The referenced tables that are not registered in the catalog; DuckDB
raises a missing-table (catalog) error as soon as one exists. -/
def missingTables (available : List String) (q : EngineQuery) : List String :=
  (referencedTables q).filter (fun t => ¬ available.contains t)

/-! ## The dispatcher (`process_request` in `main.py`) -/

/-- The routing decision produced either by the explicit `agent_type`
override or by `TriageAgent.classify_request`. -/
structure TriageResult where
  agent_type : String
  extracted_params : Row
  confidence : Rat
  reasoning : String
deriving Repr

/-- Python exceptions the dispatcher distinguishes: `ValueError` is caught
first (HTTP 400); every other exception falls to the generic handler
(HTTP 500). -/
inductive PErr where
  | valueError (msg : String)
  | keyError (key : String)
  | otherError (msg : String)
deriving Repr, DecidableEq

/-- The unified response envelope: the success dictionary built in Step 3,
or the HTTPException raised by one of the two `except` clauses. -/
inductive Response where
  | success (agent_type : String) (result : Value) (triage_confidence : Rat)
      (message : String)
  | failure (status_code : Nat) (detail : String)
deriving Repr

/-- `str(e)` for the embedded exceptions (Python renders a `KeyError` as
the quoted key). -/
def errStr : PErr → String
  | .valueError m => m
  | .keyError k => "'" ++ k ++ "'"
  | .otherError m => m

/-- The two `except` clauses of `process_request`: `ValueError` becomes a
400 with `str(e)` as detail, everything else a 500. -/
def mkFailure (e : PErr) : Response :=
  match e with
  | .valueError m => Response.failure 400 m
  | e => Response.failure 500 ("Internal server error: " ++ errStr e)

/-- The default query synthesized when `query` is absent but `user_id` is
present. -/
def defaultQuery : String := "Generate a vibe report for this customer"

/-- Outcome of the explicit-override / fallback / classification phase:
the routing decision, the (possibly query-augmented) request dict, and how
many times the intent classifier was invoked. -/
structure TriageOut where
  decision : TriageResult
  req : Row
  classifierCalls : Nat
deriving Repr

/-- The routing phase of `process_request`: an explicit `agent_type` key
skips classification (confidence fixed at 1.0, parameters = the request
minus `agent_type`); otherwise a missing `query` with a present `user_id`
is defaulted to the vibe-report query, and the classifier is invoked on
the (mutated) request. -/
def triageStep (classify : Row → TriageResult) (request : Row) : TriageOut :=
  match lookupRow request "agent_type" with
  | some v =>
      { decision :=
          { agent_type := match v with | Value.str s => s | _ => ""
            extracted_params := dropKey request "agent_type"
            confidence := 1
            reasoning := "Agent type explicitly specified by frontend" }
        req := request
        classifierCalls := 0 }
  | none =>
      let req2 :=
        if (lookupRow request "query").isNone ∧
            (lookupRow request "user_id").isSome then
          request ++ [("query", Value.str defaultQuery)]
        else request
      { decision := classify req2, req := req2, classifierCalls := 1 }

/-- Full outcome of `process_request`: the response plus the observable
effects (classifier invocations and the handler invocations with the
parameter dictionaries they received). -/
structure Outcome where
  response : Response
  decision : TriageResult
  classifierCalls : Nat
  handlerCalls : List (String × Row)
deriving Repr

/-- Step 3 of `process_request`: wrap a handler result in the success
envelope, or translate a raised exception by exception class. -/
def wrapResult (agent : String) (confidence : Rat)
    (res : Except PErr Value) : Response :=
  match res with
  | .ok r =>
      Response.success agent r confidence
        ("Request processed by " ++ agent ++ " agent")
  | .error e => mkFailure e

/-- The "Ensure user_id is never lost" block: merge `request["user_id"]`
into the extracted parameters when the raw request has it and extraction
dropped it.  No other key is merged back. -/
def mergeUserId (tr : TriageResult) (req2 : Row) : Row :=
  if (lookupRow req2 "user_id").isSome ∧
      (lookupRow tr.extracted_params "user_id").isNone then
    tr.extracted_params ++
      [("user_id", (lookupRow req2 "user_id").getD Value.null)]
  else tr.extracted_params

/-- Step 2 and Step 3 of `process_request`: route to the handler selected
by `agent_type` (unknown labels raise `ValueError`) and wrap the result.
The brand-voice branch reads `request["contact_ids"]` before invoking its
handler, raising `KeyError` when the key is absent. -/
def dispatchPhase (vibeH brandH receiptH : Row → Except PErr Value)
    (tr : TriageResult) (req2 : Row) (cc : Nat) : Outcome :=
  let ep := mergeUserId tr req2
  if tr.agent_type = "vibe_report" then
    { response := wrapResult tr.agent_type tr.confidence (vibeH ep)
      decision := tr, classifierCalls := cc
      handlerCalls := [("vibe_report", ep)] }
  else if tr.agent_type = "brand_voice" then
    match lookupRow req2 "contact_ids" with
    | none =>
        { response := mkFailure (PErr.keyError "contact_ids")
          decision := tr, classifierCalls := cc
          handlerCalls := [] }
    | some v =>
        let ep2 := setKey ep "contact_ids" v
        { response := wrapResult tr.agent_type tr.confidence (brandH ep2)
          decision := tr, classifierCalls := cc
          handlerCalls := [("brand_voice", ep2)] }
  else if tr.agent_type = "smart_receipt" then
    { response := wrapResult tr.agent_type tr.confidence (receiptH ep)
      decision := tr, classifierCalls := cc
      handlerCalls := [("smart_receipt", ep)] }
  else
    { response :=
        mkFailure (PErr.valueError ("Unknown agent type: " ++ tr.agent_type))
      decision := tr, classifierCalls := cc
      handlerCalls := [] }

/-- `process_request`: the triage phase followed by the dispatch phase. -/
def processRequest (classify : Row → TriageResult)
    (vibeH brandH receiptH : Row → Except PErr Value)
    (request : Row) : Outcome :=
  let t := triageStep classify request
  dispatchPhase vibeH brandH receiptH t.decision t.req t.classifierCalls

theorem processRequest_def (classify : Row → TriageResult)
    (vibeH brandH receiptH : Row → Except PErr Value) (request : Row) :
    processRequest classify vibeH brandH receiptH request =
      dispatchPhase vibeH brandH receiptH
        (triageStep classify request).decision
        (triageStep classify request).req
        (triageStep classify request).classifierCalls := rfl

/-! ## The vibe handler (`VibeAgent.process`) -/

/-- `VibeAgent.process`: reads `params["user_id"]` (raising `KeyError` when
absent), fetches the transaction history inside a bare
`try/except` that converts any data-access failure into the normal result
`{"error": "DB Error"}`, and otherwise assembles the result dictionary
(the statistics are the source's hardcoded example values; the generated
AI/image content is abstracted as `aiContent`). -/
def vibeProcess (fetch : Value → Except String (List Row))
    (aiContent : Value) (params : Row) : Except PErr Value :=
  match lookupRow params "user_id" with
  | none => .error (PErr.keyError "user_id")
  | some contactId =>
      match fetch contactId with
      | .error _ => .ok (Value.dict [("error", Value.str "DB Error")])
      | .ok df =>
          let rawStats :=
            if df.length = 0 then
              Value.dict [("total_spend", Value.int 0),
                ("total_items", Value.int 0),
                ("top_day", Value.str "Unknown")]
            else
              Value.dict [("total_spend", Value.rat (279247 / 100 : Rat)),
                ("total_items", Value.int 36),
                ("top_day", Value.str "Tuesday")]
          .ok (Value.dict [("user_id", contactId), ("raw_stats", rawStats),
            ("ai_content", aiContent)])

/-- The transaction-history fetch `VibeAgent.process` performs against the
real engine: `data_engine.get_transaction_history(contact_id)`.  `DataEngine`
defines no method of that name, so the attribute access raises
`AttributeError` for every input. -/
def vibeFetchReal : Value → Except String (List Row) :=
  fun _ => .error "AttributeError: DataEngine has no get_transaction_history"

/-! ## Sortedness helpers for the leaderboard -/

/-- "Sorted by success rate descending" as a relation between a row and any
later row. -/
def rdRel (a b : PerfRow) : Prop := b.success_rate ≤ a.success_rate

instance : DecidableRel rdRel := fun a b =>
  inferInstanceAs (Decidable (b.success_rate ≤ a.success_rate))

theorem mem_insertByRate (x a : PerfRow) (l : List PerfRow) :
    a ∈ insertByRate x l ↔ a = x ∨ a ∈ l := by
  induction l with
  | nil => simp [insertByRate]
  | cons y ys ih =>
      by_cases h : x.success_rate < y.success_rate <;>
        simp [insertByRate, h, ih] <;> tauto

theorem pairwise_insertByRate (x : PerfRow) (l : List PerfRow)
    (hl : l.Pairwise rdRel) : (insertByRate x l).Pairwise rdRel := by
  induction l with
  | nil => simp [insertByRate, List.pairwise_cons]
  | cons y ys ih =>
      rw [List.pairwise_cons] at hl
      obtain ⟨hy, hys⟩ := hl
      by_cases h : x.success_rate < y.success_rate
      · rw [insertByRate, if_pos h, List.pairwise_cons]
        refine ⟨?_, ih hys⟩
        intro z hz
        rcases (mem_insertByRate x z ys).1 hz with rfl | hz2
        · exact le_of_lt h
        · exact hy z hz2
      · rw [insertByRate, if_neg h, List.pairwise_cons]
        refine ⟨?_, List.pairwise_cons.2 ⟨hy, hys⟩⟩
        intro z hz
        rcases List.mem_cons.1 hz with rfl | hz2
        · exact le_of_not_lt h
        · exact le_trans (hy z hz2) (le_of_not_lt h)

theorem pairwise_sortByRateDesc (l : List PerfRow) :
    (sortByRateDesc l).Pairwise rdRel := by
  induction l with
  | nil => simp [sortByRateDesc]
  | cons x xs ih => exact pairwise_insertByRate x _ ih

theorem mem_sortByRateDesc (a : PerfRow) (l : List PerfRow) :
    a ∈ sortByRateDesc l ↔ a ∈ l := by
  induction l with
  | nil => simp [sortByRateDesc]
  | cons x xs ih => simp [sortByRateDesc, mem_insertByRate, ih]

theorem rate_formula_of_mem_perf (store : Store) (r : PerfRow)
    (h : r ∈ campaignPerformanceRows store) :
    r.success_rate =
      if r.delivered = 0 then 0
      else (r.clicked : Rat) / (r.delivered : Rat) := by
  simp only [campaignPerformanceRows, List.mem_map] at h
  obtain ⟨k, -, rfl⟩ := h
  rfl

/-! ## Concrete fixtures for witnesses and counterexamples -/

/-- A sale of customer 5: one unit at price 10. -/
def salesK1 : SalesRow := ⟨1, "2024-01-05", 1, 10, 0, "K1", 100, 5⟩

/-- A second sale of customer 5: one unit at price 20. -/
def salesK2 : SalesRow := ⟨2, "2024-01-09", 1, 20, 0, "K2", 101, 5⟩

/-- The single customer, id 5. -/
def anaLee : ContactRow :=
  ⟨5, "Ana", "Lee", "F", "Springfield", "1990-01-01", "Y", "2020-01-01"⟩

/-- A store with exactly one customer (id 5) who has two sales rows. -/
def storeOneCustomer : Store := ⟨[salesK1, salesK2], [anaLee], [], [], []⟩

/-- A store whose sales table has a row for customer id 7 while the
contacts table is empty (id 7 is absent from the customer dataset). -/
def storeDanglingSale : Store :=
  ⟨[⟨1, "2024-01-05", 1, 10, 0, "K1", 100, 7⟩], [], [], [], []⟩

/-- A store with two templates and no campaign events: both success rates
are 0 (tied), with template id 2 listed before template id 1. -/
def storeTiedTemplates : Store := ⟨[], [], [], [⟨2, "b"⟩, ⟨1, "a"⟩], []⟩

/-! ## C1 -/

/-- C1 counterexample: calling `get_enriched_sales` (plan construction)
performs a DuckDB query execution — a data access — at call time on a
concrete store, refuting "each DataEngine method that returns a plan
performs no data access at call time". -/
theorem c1_plan_construction_touches_data_cex :
    (get_enriched_sales storeOneCustomer 5).duckdbExecs ≠ 0 := by decide

/-- C1 (amended): every plan-returning `DataEngine` method executes its SQL
against the store at call time — one DuckDB execution for the single-query
methods, two for `get_user_analytics_pipeline`, which calls both
`get_enriched_sales` and `get_customer_profile` — and only the polars-level
join and derived-column steps of the analytics pipeline are deferred plan
nodes, evaluated at `collect`. -/
theorem c1_sql_eager_polars_deferred (store : Store) (cid : Int) :
    (get_sales_history store cid).duckdbExecs = 1 ∧
    (get_customer_profile store cid).duckdbExecs = 1 ∧
    (get_enriched_sales store cid).duckdbExecs = 1 ∧
    (get_campaign_performance store).duckdbExecs = 1 ∧
    (get_user_analytics_pipeline store cid).duckdbExecs = 2 ∧
    (get_user_analytics_pipeline store cid).frame =
      LF.withCols
        (LF.joinLeft (get_enriched_sales store cid).frame
          (get_customer_profile store cid).frame "cid")
        pipelineDerivedCols :=
  ⟨rfl, rfl, rfl, rfl, rfl, rfl⟩

/-! ## C2 -/

/-- C2: evaluating `get_user_group_profile` at the failing input — the
range [5, 5] contains exactly one customer, who has two sales rows — the
code returns `total_users = 2` (its `COUNT(*)` counts contact×sales join
rows), where the claim requires `total_users = 1`; `avg_spend = 15` is the
customer's own per-transaction average. -/
theorem c2_group_profile_counts_join_rows :
    get_user_group_profile storeOneCustomer 5 5 =
      Except.ok
        { total_users := 2
          gender_distribution := [("F", 2)]
          city_distribution := [("Springfield", 2)]
          loyalty_split := [("Y", 2)]
          avg_spend := 15 } := by
  have hrows : groupProfileRows storeOneCustomer 5 5 =
      [{ gender := "F", city := "Springfield", loyalty_customer := "Y",
         user_count := 2, avg_spend := some 15 }] := by
    simp [groupProfileRows, groupJoinRows, storeOneCustomer, salesK1, salesK2,
      anaLee, dedupFirst, dedupFirstAux]
    norm_num
  simp only [get_user_group_profile, hrows]
  norm_num [distributionBy, dedupFirst, dedupFirstAux, round2,
    List.filterMap_cons, List.filterMap_nil]

/-! ## C3 -/

/-- The ordering the claim asserts for the consumed leaderboard rows:
success rate descending with ties broken by template id ascending.  Stated
from the claim's words, to be compared with the code's ordering. -/
def claimedLeaderboardOrder (rows : List PerfRow) : Prop :=
  rows.Pairwise (fun a b =>
    b.success_rate < a.success_rate ∨
      (a.success_rate = b.success_rate ∧ a.template_id ≤ b.template_id))

/-- C3 counterexample: with two templates tied at success rate 0 and listed
with id 2 before id 1, the consumed rows keep the input order [2, 1] — the
code sorts only by success rate and never applies the template-id
tie-break. -/
theorem c3_tie_not_broken_by_template_id_cex :
    (consumedCampaignRows storeTiedTemplates).map
        (fun r => (r.template_id, r.success_rate)) = [(2, 0), (1, 0)] ∧
    ¬ claimedLeaderboardOrder (consumedCampaignRows storeTiedTemplates) := by
  constructor
  · rfl
  · intro h
    rw [claimedLeaderboardOrder] at h
    revert h
    decide

/-- C3 (amended): the consumed leaderboard rows are sorted by success rate
descending — ties are left in the engine's group-output order, with no
template-id tie-break — and every row's success rate equals clicked-count
divided by delivered-count, defined as exactly 0 when the delivered-count
is 0, never a division error. -/
theorem c3_sorted_by_rate_desc_rate_formula (store : Store) :
    (consumedCampaignRows store).Pairwise rdRel ∧
    ∀ r ∈ consumedCampaignRows store,
      r.success_rate =
        if r.delivered = 0 then 0
        else (r.clicked : Rat) / (r.delivered : Rat) := by
  constructor
  · exact List.Pairwise.sublist (List.take_sublist _ _)
      (pairwise_sortByRateDesc _)
  · intro r hr
    have h2 : r ∈ sortByRateDesc (campaignPerformanceRows store) :=
      List.mem_of_mem_take hr
    exact rate_formula_of_mem_perf store r ((mem_sortByRateDesc _ _).1 h2)

/-- C3 witness: the amended theorem applied to the tied-templates store and
to its first consumed row. -/
theorem c3_sorted_by_rate_desc_rate_formula_witness :
    (consumedCampaignRows storeTiedTemplates).Pairwise rdRel ∧
    (⟨2, "b", 0, 0, 0⟩ : PerfRow).success_rate =
      if (⟨2, "b", 0, 0, 0⟩ : PerfRow).delivered = 0 then 0
      else ((⟨2, "b", 0, 0, 0⟩ : PerfRow).clicked : Rat) /
        ((⟨2, "b", 0, 0, 0⟩ : PerfRow).delivered : Rat) :=
  ⟨(c3_sorted_by_rate_desc_rate_formula storeTiedTemplates).1,
   (c3_sorted_by_rate_desc_rate_formula storeTiedTemplates).2 _ (by decide)⟩

/-! ## C6 -/

/-- C6 counterexample: customer id 7 is absent from the customer dataset
(the contacts table is empty), yet `transactionDigest` is non-empty,
because the pipeline is driven by the sales table, which holds a row for
id 7; the left join merely null-fills the customer columns. -/
theorem c6_absent_customer_nonempty_digest_cex :
    storeDanglingSale.contacts = [] ∧
    (transactionDigest storeDanglingSale 7).length = 1 := ⟨rfl, rfl⟩

/-- C6 (amended): for every customer identifier with no rows in the sales
dataset — which under sales⊆contacts referential integrity covers every id
absent from the customer dataset — `transactionDigest` returns an empty
result; the materialization is total, so no error is raised. -/
theorem c6_digest_empty_for_ids_without_sales (store : Store) (cid : Int)
    (h : ∀ s ∈ store.sales, s.cid ≠ cid) :
    transactionDigest store cid = [] := by
  have hfilter : store.sales.filter (fun s => s.cid == cid) = [] := by
    rw [List.filter_eq_nil_iff]
    intro s hs
    simpa using h s hs
  simp [transactionDigest, get_user_analytics_pipeline, get_enriched_sales,
    get_customer_profile, enrichedSalesRows, hfilter, LF.collect]

/-- C6 witness: the amended theorem at a concrete store whose only sale
belongs to customer 7, applied to the absent id 99. -/
theorem c6_digest_empty_for_ids_without_sales_witness :
    transactionDigest storeDanglingSale 99 = [] :=
  c6_digest_empty_for_ids_without_sales storeDanglingSale 99 (by decide)

/-! ## C7 -/

/-- The table names `DataEngine` queries are allowed to mention per the
claim. -/
def engineTables : List String :=
  ["sales", "contacts", "sku", "templates", "campaign_metrics",
   "contacts_loyalty"]

/-- C7: the loader registers exactly `transactions` and `customers`; every
`DataEngine` query references only tables among sales, contacts, sku,
templates, campaign_metrics, contacts_loyalty, and each query has at least
one referenced table missing from the loader's catalog, so executing it
against a store produced by `load_csvs_to_duckdb` fails with a
missing-table error. -/
theorem c7_loader_engine_table_mismatch :
    loaderTables = ["transactions", "customers"] ∧
    ∀ q : EngineQuery,
      (referencedTables q).all (fun t => engineTables.contains t) = true ∧
      (missingTables loaderTables q).isEmpty = false := by
  refine ⟨rfl, fun q => ?_⟩
  cases q <;> exact ⟨rfl, rfl⟩

/-! ## Dispatcher helpers and fixtures -/

theorem mkFailure_ne_success (e : PErr) (a : String) (r : Value) (c : Rat)
    (m : String) : mkFailure e ≠ Response.success a r c m := by
  cases e <;> simp [mkFailure]

theorem confidence_of_wrapResult_success {agent a : String} {conf c : Rat}
    {res : Except PErr Value} {r : Value} {m : String}
    (hw : wrapResult agent conf res = Response.success a r c m) : c = conf := by
  cases res with
  | ok x =>
      simp only [wrapResult] at hw
      injection hw with h1 h2 h3 h4
      exact h3.symm
  | error e =>
      simp only [wrapResult] at hw
      exact absurd hw (mkFailure_ne_success e a r c m)

/-- Looking up any key other than `query` in the request as it leaves the
triage phase gives the original request's value: the only mutation is the
appended default `query`. -/
theorem lookupRow_triageStep_req (classify : Row → TriageResult)
    (request : Row) (k : String) (hk : k ≠ "query") :
    lookupRow (triageStep classify request).req k = lookupRow request k := by
  unfold triageStep
  cases hl : lookupRow request "agent_type" with
  | some v => simp
  | none =>
      simp only []
      split_ifs with hcond
      · rw [lookupRow_append]
        have hk2 : ¬"query" = k := fun hh => hk hh.symm
        cases hres : lookupRow request k <;> simp [lookupRow, hk2]
      · rfl

/-- A classifier stub that always routes to `vibe_report` with no extracted
parameters. -/
def classifyToVibeNoParams : Row → TriageResult :=
  fun _ =>
    { agent_type := "vibe_report", extracted_params := [], confidence := 1
      reasoning := "classified" }

/-- A classifier stub that always routes to `brand_voice`. -/
def classifyToBrand : Row → TriageResult :=
  fun _ =>
    { agent_type := "brand_voice", extracted_params := [], confidence := 1
      reasoning := "classified" }

/-- A handler stub that succeeds with an empty result dictionary. -/
def okHandler : Row → Except PErr Value := fun _ => .ok (Value.dict [])

/-- The request `{"user_id": "X"}`: no query, no explicit route. -/
def reqUserOnly : Row := [("user_id", Value.str "X")]

/-- An explicit vibe-report request with a user id. -/
def reqVibeExplicit : Row :=
  [("agent_type", Value.str "vibe_report"), ("user_id", Value.str "20186130")]

/-- A request carrying the identifier `campaign_id` and a query, but no
`user_id`. -/
def reqCampaignOnly : Row :=
  [("campaign_id", Value.str "C9"),
   ("query", Value.str "how did campaign C9 perform")]

/-- An explicit brand-voice request with campaign texts but no
`contact_ids`. -/
def reqBrandNoContacts : Row :=
  [("agent_type", Value.str "brand_voice"),
   ("campaign_texts", Value.list [Value.str "Hey VIP! Your offer is here!"])]


/-! ## Dispatch-phase characterization lemmas -/

theorem dispatchPhase_decision (vibeH brandH receiptH : Row → Except PErr Value)
    (tr : TriageResult) (req2 : Row) (cc : Nat) :
    (dispatchPhase vibeH brandH receiptH tr req2 cc).decision = tr := by
  simp only [dispatchPhase]
  split_ifs <;> first
    | rfl
    | (cases hx : lookupRow req2 "contact_ids" <;> rfl)

theorem dispatchPhase_classifierCalls
    (vibeH brandH receiptH : Row → Except PErr Value)
    (tr : TriageResult) (req2 : Row) (cc : Nat) :
    (dispatchPhase vibeH brandH receiptH tr req2 cc).classifierCalls = cc := by
  simp only [dispatchPhase]
  split_ifs <;> first
    | rfl
    | (cases hx : lookupRow req2 "contact_ids" <;> rfl)

theorem dispatchPhase_confidence_of_success
    {vibeH brandH receiptH : Row → Except PErr Value}
    {tr : TriageResult} {req2 : Row} {cc : Nat} {a : String} {r : Value}
    {c : Rat} {m : String}
    (hresp : (dispatchPhase vibeH brandH receiptH tr req2 cc).response =
      Response.success a r c m) : c = tr.confidence := by
  simp only [dispatchPhase] at hresp
  split_ifs at hresp with h1 h2 h3
  · exact confidence_of_wrapResult_success hresp
  · cases hx : lookupRow req2 "contact_ids" with
    | none =>
        rw [hx] at hresp
        exact absurd hresp
          (mkFailure_ne_success (PErr.keyError "contact_ids") a r c m)
    | some w =>
        rw [hx] at hresp
        have hresp2 : wrapResult tr.agent_type tr.confidence
            (brandH (setKey (mergeUserId tr req2) "contact_ids" w)) =
              Response.success a r c m := hresp
        exact confidence_of_wrapResult_success hresp2
  · exact confidence_of_wrapResult_success hresp
  · exact absurd hresp
      (mkFailure_ne_success
        (PErr.valueError ("Unknown agent type: " ++ tr.agent_type)) a r c m)

theorem dispatchPhase_vibe_response
    (vibeH brandH receiptH : Row → Except PErr Value)
    (tr : TriageResult) (req2 : Row) (cc : Nat)
    (hroute : tr.agent_type = "vibe_report") :
    (dispatchPhase vibeH brandH receiptH tr req2 cc).response =
      wrapResult tr.agent_type tr.confidence (vibeH (mergeUserId tr req2)) := by
  simp only [dispatchPhase]
  rw [if_pos hroute]

theorem dispatchPhase_vibe_handlerCalls
    (vibeH brandH receiptH : Row → Except PErr Value)
    (tr : TriageResult) (req2 : Row) (cc : Nat)
    (hroute : tr.agent_type = "vibe_report") :
    (dispatchPhase vibeH brandH receiptH tr req2 cc).handlerCalls =
      [("vibe_report", mergeUserId tr req2)] := by
  simp only [dispatchPhase]
  rw [if_pos hroute]

theorem dispatchPhase_brand_missing_contact_ids
    (vibeH brandH receiptH : Row → Except PErr Value)
    (tr : TriageResult) (req2 : Row) (cc : Nat)
    (hroute : tr.agent_type = "brand_voice")
    (hmiss : lookupRow req2 "contact_ids" = none) :
    (dispatchPhase vibeH brandH receiptH tr req2 cc).response =
        mkFailure (PErr.keyError "contact_ids") ∧
    (dispatchPhase vibeH brandH receiptH tr req2 cc).handlerCalls = [] := by
  have h1 : ¬ tr.agent_type = "vibe_report" := by rw [hroute]; decide
  simp only [dispatchPhase]
  rw [if_neg h1, if_pos hroute, hmiss]
  exact ⟨rfl, rfl⟩

theorem lookup_user_id_of_mem_handlerCalls
    {vibeH brandH receiptH : Row → Except PErr Value}
    {tr : TriageResult} {req2 : Row} {cc : Nat} {a : String} {ep' : Row}
    (hmem : (a, ep') ∈
      (dispatchPhase vibeH brandH receiptH tr req2 cc).handlerCalls) :
    lookupRow ep' "user_id" = lookupRow (mergeUserId tr req2) "user_id" := by
  simp only [dispatchPhase] at hmem
  split_ifs at hmem with h1 h2 h3
  · have hm : (a, ep') ∈ [("vibe_report", mergeUserId tr req2)] := hmem
    have h := List.mem_singleton.1 hm
    rw [Prod.mk.injEq] at h
    rw [h.2]
  · cases hx : lookupRow req2 "contact_ids" with
    | none =>
        rw [hx] at hmem
        have hm : (a, ep') ∈ ([] : List (String × Row)) := hmem
        exact absurd hm (List.not_mem_nil _)
    | some w =>
        rw [hx] at hmem
        have hm : (a, ep') ∈
            [("brand_voice", setKey (mergeUserId tr req2) "contact_ids" w)] :=
          hmem
        have h := List.mem_singleton.1 hm
        rw [Prod.mk.injEq] at h
        rw [h.2, lookupRow_setKey_ne _ _ _ _ (by decide)]
  · have hm : (a, ep') ∈ [("smart_receipt", mergeUserId tr req2)] := hmem
    have h := List.mem_singleton.1 hm
    rw [Prod.mk.injEq] at h
    rw [h.2]
  · have hm : (a, ep') ∈ ([] : List (String × Row)) := hmem
    exact absurd hm (List.not_mem_nil _)

/-! ## C5 -/

/-- C5: for every request carrying an explicit `agent_type` key, the intent
classifier is never invoked (zero classifier invocations), the routing
decision's confidence is exactly 1.0, and any success response reports
confidence exactly 1.0. -/
theorem c5_explicit_override_skips_classifier (classify : Row → TriageResult)
    (vibeH brandH receiptH : Row → Except PErr Value) (request : Row)
    (v : Value) (h : lookupRow request "agent_type" = some v) :
    (processRequest classify vibeH brandH receiptH request).classifierCalls
        = 0 ∧
    (processRequest classify vibeH brandH receiptH request).decision.confidence
        = 1 ∧
    ∀ a r c m,
      (processRequest classify vibeH brandH receiptH request).response =
          Response.success a r c m → c = 1 := by
  have ht0 : (triageStep classify request).classifierCalls = 0 := by
    simp [triageStep, h]
  have ht1 : (triageStep classify request).decision.confidence = 1 := by
    simp [triageStep, h]
  refine ⟨?_, ?_, ?_⟩
  · rw [processRequest_def, dispatchPhase_classifierCalls, ht0]
  · rw [processRequest_def, dispatchPhase_decision, ht1]
  · intro a r c m hresp
    rw [processRequest_def] at hresp
    have hc := dispatchPhase_confidence_of_success hresp
    rw [hc, ht1]

/-- C5 witness: an explicit smart-receipt request; classification is
skipped, the decision's confidence is 1, and the (successful) response's
confidence is 1. -/
theorem c5_explicit_override_skips_classifier_witness :
    (processRequest classifyToBrand okHandler okHandler okHandler
        [("agent_type", Value.str "smart_receipt"),
         ("user_id", Value.str "u1")]).classifierCalls = 0 ∧
    (processRequest classifyToBrand okHandler okHandler okHandler
        [("agent_type", Value.str "smart_receipt"),
         ("user_id", Value.str "u1")]).decision.confidence = 1 ∧
    (1 : Rat) = 1 := by
  obtain ⟨h1, h2, h3⟩ := c5_explicit_override_skips_classifier classifyToBrand
    okHandler okHandler okHandler
    [("agent_type", Value.str "smart_receipt"), ("user_id", Value.str "u1")]
    (Value.str "smart_receipt") rfl
  exact ⟨h1, h2, h3 "smart_receipt" (Value.dict []) 1
    "Request processed by smart_receipt agent" rfl⟩

/-! ## C10 -/

/-- C10: whenever the routing decision selects the brand_voice route and
the raw request lacks `contact_ids`, the dispatcher's
`request["contact_ids"]` raises `KeyError` before the handler is invoked
(no handler call), reported through the generic exception handler as a
500-class failure rather than a 400 validation error. -/
theorem c10_brand_route_missing_contact_ids (classify : Row → TriageResult)
    (vibeH brandH receiptH : Row → Except PErr Value) (request : Row)
    (hroute : (triageStep classify request).decision.agent_type =
      "brand_voice")
    (hmiss : lookupRow request "contact_ids" = none) :
    (processRequest classify vibeH brandH receiptH request).response =
        Response.failure 500 "Internal server error: 'contact_ids'" ∧
    (processRequest classify vibeH brandH receiptH request).handlerCalls
        = [] := by
  have hreq : lookupRow (triageStep classify request).req "contact_ids" =
      none := by
    rw [lookupRow_triageStep_req classify request _ (by decide)]
    exact hmiss
  have hb := dispatchPhase_brand_missing_contact_ids vibeH brandH receiptH
    (triageStep classify request).decision (triageStep classify request).req
    (triageStep classify request).classifierCalls hroute hreq
  rw [processRequest_def]
  exact ⟨hb.1, hb.2⟩

/-- C10 witness: the explicit brand-voice request with `campaign_texts`
but no `contact_ids` fails with the 500 KeyError envelope and no handler
runs. -/
theorem c10_brand_route_missing_contact_ids_witness :
    (processRequest classifyToBrand okHandler okHandler okHandler
        reqBrandNoContacts).response =
      Response.failure 500 "Internal server error: 'contact_ids'" ∧
    (processRequest classifyToBrand okHandler okHandler okHandler
        reqBrandNoContacts).handlerCalls = [] :=
  c10_brand_route_missing_contact_ids classifyToBrand okHandler okHandler
    okHandler reqBrandNoContacts rfl rfl

/-! ## C4 -/

/-- C4 counterexample: the raw request carries the identifier
`campaign_id`, classification extracts nothing, and the envelope the
handler receives is empty — the identifier is dropped.  Only `user_id` is
ever merged back. -/
theorem c4_identifier_dropped_cex :
    lookupRow reqCampaignOnly "campaign_id" = some (Value.str "C9") ∧
    (classifyToVibeNoParams reqCampaignOnly).extracted_params = [] ∧
    (processRequest classifyToVibeNoParams okHandler okHandler okHandler
        reqCampaignOnly).handlerCalls = [("vibe_report", [])] ∧
    lookupRow ([] : Row) "campaign_id" = none := ⟨rfl, rfl, rfl, rfl⟩

/-- C4 (amended): the merge-never-drop guarantee holds for the `user_id`
field only: whenever `user_id` is present in the raw request and absent
from the extracted parameters, every envelope passed to a handler carries
the raw request's `user_id` value.  Identifier fields other than `user_id`
are not merged back. -/
theorem c4_user_id_merged_never_dropped (classify : Row → TriageResult)
    (vibeH brandH receiptH : Row → Except PErr Value) (request : Row)
    (v : Value) (hu : lookupRow request "user_id" = some v)
    (he : lookupRow (triageStep classify request).decision.extracted_params
      "user_id" = none) :
    ∀ a ep',
      (a, ep') ∈
        (processRequest classify vibeH brandH receiptH request).handlerCalls →
      lookupRow ep' "user_id" = some v := by
  intro a ep' hmem
  rw [processRequest_def] at hmem
  rw [lookup_user_id_of_mem_handlerCalls hmem]
  have hreq : lookupRow (triageStep classify request).req "user_id" =
      some v := by
    rw [lookupRow_triageStep_req classify request _ (by decide)]
    exact hu
  rw [mergeUserId, if_pos ⟨by rw [hreq]; rfl, by rw [he]; rfl⟩]
  rw [lookupRow_append, he]
  simp [lookupRow, hreq]

/-- C4 witness: the amended theorem at a request `{"user_id": "X", "query":
...}` with a classifier that extracts nothing; the vibe envelope carries
`user_id = "X"`. -/
theorem c4_user_id_merged_never_dropped_witness :
    lookupRow [("user_id", Value.str "X")] "user_id" =
      some (Value.str "X") :=
  c4_user_id_merged_never_dropped classifyToVibeNoParams okHandler okHandler
    okHandler [("user_id", Value.str "X"), ("query", Value.str "vibe please")]
    (Value.str "X") rfl rfl "vibe_report" [("user_id", Value.str "X")]
    (List.mem_singleton_self _)

/-! ## C8 -/

/-- C8 counterexample: an explicit vibe-report request whose data access
fails (the fetch always raises: `DataEngine` has no
`get_transaction_history`) is reported inside a success envelope — the
vibe handler catches the failure and returns `{"error": "DB Error"}` as a
normal result, so the failing request is wrapped with success = true. -/
theorem c8_db_error_inside_success_envelope_cex :
    (processRequest classifyToBrand (vibeProcess vibeFetchReal Value.null)
        okHandler okHandler reqVibeExplicit).response =
      Response.success "vibe_report"
        (Value.dict [("error", Value.str "DB Error")]) 1
        "Request processed by vibe_report agent" := rfl

/-- C8 (amended): failures that propagate as exceptions yield the unified
failure envelope — `ValueError` as a 400 with its message, `KeyError` and
every other exception as a 500 with an "Internal server error" detail —
but the vibe handler converts its data-access failure (every fetch fails,
since `DataEngine` defines no `get_transaction_history`) into the normal
result `{"error": "DB Error"}` returned inside a success = true
envelope. -/
theorem c8_exception_mapping_and_vibe_leak (classify : Row → TriageResult)
    (brandH receiptH : Row → Except PErr Value) (ai : Value) (request : Row)
    (contact : Value)
    (h1 : lookupRow request "agent_type" = some (Value.str "vibe_report"))
    (h2 : lookupRow request "user_id" = some contact) :
    (processRequest classify (vibeProcess vibeFetchReal ai) brandH receiptH
        request).response =
      Response.success "vibe_report"
        (Value.dict [("error", Value.str "DB Error")]) 1
        "Request processed by vibe_report agent" ∧
    (∀ vibeH : Row → Except PErr Value, ∀ e : PErr,
        vibeH (dropKey request "agent_type") = Except.error e →
        (processRequest classify vibeH brandH receiptH request).response =
          mkFailure e) ∧
    (∀ m, mkFailure (PErr.valueError m) = Response.failure 400 m) ∧
    (∀ k, mkFailure (PErr.keyError k) =
        Response.failure 500
          ("Internal server error: " ++ errStr (PErr.keyError k))) ∧
    (∀ m, mkFailure (PErr.otherError m) =
        Response.failure 500 ("Internal server error: " ++ m)) := by
  have hts : triageStep classify request =
      { decision :=
          { agent_type := "vibe_report"
            extracted_params := dropKey request "agent_type"
            confidence := 1
            reasoning := "Agent type explicitly specified by frontend" }
        req := request
        classifierCalls := 0 } := by
    simp [triageStep, h1]
  have hlu : lookupRow (dropKey request "agent_type") "user_id" =
      some contact := by
    rw [lookupRow_dropKey_ne _ _ _ (by decide)]
    exact h2
  have hmerge : mergeUserId (triageStep classify request).decision
      (triageStep classify request).req = dropKey request "agent_type" := by
    rw [hts, mergeUserId]
    rw [if_neg]
    · intro hcond
      rw [hlu] at hcond
      exact absurd hcond.2 (by simp)
  refine ⟨?_, ?_, fun m => rfl, fun k => rfl, fun m => rfl⟩
  · rw [processRequest_def,
      dispatchPhase_vibe_response _ _ _ _ _ _ (by rw [hts]), hmerge]
    rw [hts]
    simp [wrapResult, vibeProcess, hlu, vibeFetchReal]
  · intro vibeH e hver
    rw [processRequest_def,
      dispatchPhase_vibe_response _ _ _ _ _ _ (by rw [hts]), hmerge, hver]
    rfl

/-- C8 witness: the amended theorem at the explicit vibe request — the
data-access failure surfaces inside a success envelope — together with the
ValueError-to-400 mapping at a concrete message. -/
theorem c8_exception_mapping_and_vibe_leak_witness :
    (processRequest classifyToBrand (vibeProcess vibeFetchReal Value.null)
        okHandler okHandler reqVibeExplicit).response =
      Response.success "vibe_report"
        (Value.dict [("error", Value.str "DB Error")]) 1
        "Request processed by vibe_report agent" ∧
    mkFailure (PErr.valueError "user_id is required") =
      Response.failure 400 "user_id is required" :=
  ⟨(c8_exception_mapping_and_vibe_leak classifyToBrand okHandler okHandler
      Value.null reqVibeExplicit (Value.str "20186130") rfl rfl).1,
   (c8_exception_mapping_and_vibe_leak classifyToBrand okHandler okHandler
      Value.null reqVibeExplicit (Value.str "20186130") rfl rfl).2.2.1
     "user_id is required"⟩

/-! ## C9 -/

/-- C9 counterexample: on `{"user_id": "X"}` with no query and no explicit
route, the route is whatever the classifier returns — here a classifier
answering brand_voice — so the resulting route is not the vibe/profile
route; the request then fails on the missing `contact_ids`. -/
theorem c9_classifier_decides_route_cex :
    lookupRow reqUserOnly "query" = none ∧
    lookupRow reqUserOnly "agent_type" = none ∧
    (processRequest classifyToBrand okHandler okHandler okHandler
        reqUserOnly).decision.agent_type = "brand_voice" ∧
    (processRequest classifyToBrand okHandler okHandler okHandler
        reqUserOnly).response =
      Response.failure 500 "Internal server error: 'contact_ids'" :=
  ⟨rfl, rfl, rfl, rfl⟩

/-- C9 (amended): on `{"user_id": "X"}` with no query and no explicit
route, the dispatcher synthesizes the default vibe-report query and
invokes the classifier once on the augmented request; the route is
whatever the classifier returns — the vibe route exactly when the
classifier classifies the synthesized query as vibe_report — and when the
classifier extracts no `user_id` of its own, the envelope passed to the
vibe handler contains `user_id = "X"`. -/
theorem c9_default_query_then_classifier_routes (classify : Row → TriageResult)
    (vibeH brandH receiptH : Row → Except PErr Value) (x : String)
    (epc : Row) (conf : Rat) (rs : String)
    (hc : classify [("user_id", Value.str x),
        ("query", Value.str defaultQuery)] =
      { agent_type := "vibe_report", extracted_params := epc
        confidence := conf, reasoning := rs })
    (he : lookupRow epc "user_id" = none) :
    (triageStep classify [("user_id", Value.str x)]).req =
      [("user_id", Value.str x), ("query", Value.str defaultQuery)] ∧
    (processRequest classify vibeH brandH receiptH
        [("user_id", Value.str x)]).classifierCalls = 1 ∧
    (processRequest classify vibeH brandH receiptH
        [("user_id", Value.str x)]).decision.agent_type = "vibe_report" ∧
    (processRequest classify vibeH brandH receiptH
        [("user_id", Value.str x)]).handlerCalls =
      [("vibe_report", epc ++ [("user_id", Value.str x)])] := by
  have hts : triageStep classify [("user_id", Value.str x)] =
      { decision := classify [("user_id", Value.str x),
          ("query", Value.str defaultQuery)]
        req := [("user_id", Value.str x), ("query", Value.str defaultQuery)]
        classifierCalls := 1 } := by
    simp [triageStep, lookupRow]
  rw [hc] at hts
  refine ⟨by rw [hts], ?_, ?_, ?_⟩
  · rw [processRequest_def, dispatchPhase_classifierCalls, hts]
  · rw [processRequest_def, dispatchPhase_decision, hts]
  · rw [processRequest_def,
      dispatchPhase_vibe_handlerCalls _ _ _ _ _ _ (by rw [hts]), hts]
    rw [mergeUserId, if_pos ⟨rfl, by rw [he]; rfl⟩]
    simp [lookupRow]

/-- C9 witness: the amended theorem with a classifier that does return
vibe_report and extracts nothing, at user id "X". -/
theorem c9_default_query_then_classifier_routes_witness :
    (triageStep classifyToVibeNoParams [("user_id", Value.str "X")]).req =
      [("user_id", Value.str "X"), ("query", Value.str defaultQuery)] ∧
    (processRequest classifyToVibeNoParams okHandler okHandler okHandler
        [("user_id", Value.str "X")]).classifierCalls = 1 ∧
    (processRequest classifyToVibeNoParams okHandler okHandler okHandler
        [("user_id", Value.str "X")]).decision.agent_type = "vibe_report" ∧
    (processRequest classifyToVibeNoParams okHandler okHandler okHandler
        [("user_id", Value.str "X")]).handlerCalls =
      [("vibe_report", [] ++ [("user_id", Value.str "X")])] :=
  c9_default_query_then_classifier_routes classifyToVibeNoParams okHandler
    okHandler okHandler "X" [] 1 "classified" rfl rfl
